import Mathlib

/-!
Shallow embedding of the babylon-mtoon-material repository: the `MToonMaterial`
material model and the `MToonOutlineRenderer` scene component, as declared in
`src/dist/mtoon-material.d.ts` and `src/unnamed/part_000`.

The repository ships only type declarations (a `.d.ts` file and a declarations
file for the outline renderer); the method bodies are elided.  Every behavioural
definition below is therefore modelled from the specification (`spec.md`), and
carries a doc comment saying exactly which missing implementation it models.
The data model (field names, enum constructors) is taken directly from the
declaration files.
-/

namespace MToonSpec

/-- Debug shading mode, from the `DebugMode` enum of `mtoon-material.d.ts`
(None = 0, Normal = 1, LitShadeRate = 2). -/
inductive DebugMode
  | none
  | normal
  | litShadeRate
deriving DecidableEq

/-- Outline color mode, from the `OutlineColorMode` enum of
`mtoon-material.d.ts` (FixedColor = 0, MixedLighting = 1). -/
inductive OutlineColorMode
  | fixedColor
  | mixedLighting
deriving DecidableEq

/-- Outline width mode, from the `OutlineWidthMode` enum of
`mtoon-material.d.ts` (None = 0, WorldCorrdinates = 1, ScreenCoordinates = 2). -/
inductive OutlineWidthMode
  | none
  | worldCoordinates
  | screenCoordinates
deriving DecidableEq

/-- Cull mode, from the `CullMode` enum of `mtoon-material.d.ts`
(Off = 0, Front = 1, Back = 2). -/
inductive CullMode
  | off
  | front
  | back
deriving DecidableEq

/-- A 3-component linear color (`Color3` of the host engine); component values
are modelled as exact rationals. -/
structure Color3 where
  r : Rat
  g : Rat
  b : Rat
deriving DecidableEq

/-- The MToon material model, from the `MToonMaterial` class declaration of
`mtoon-material.d.ts`.  A texture slot holds an optional reference to a
host-owned texture resource, modelled by the texture's url string (the host
owns the resource and its readiness state).  `outlineRenderer` holds the id of
the lazily constructed outline renderer component, when one was enabled.
`storedCullMode` is the private save slot used by
`applyOutlineCullMode` / `restoreOutlineCullMode`. -/
structure MToonMaterial where
  name : String
  diffuseTexture : Option String
  emissiveTexture : Option String
  bumpTexture : Option String
  shadeTexture : Option String
  receiveShadowTexture : Option String
  shadingGradeTexture : Option String
  rimTexture : Option String
  matCapTexture : Option String
  outlineWidthTexture : Option String
  uvAnimationMaskTexture : Option String
  diffuseColor : Color3
  ambientColor : Color3
  emissiveColor : Color3
  shadeColor : Color3
  rimColor : Color3
  outlineColor : Color3
  alphaCutOff : Rat
  disableLighting : Bool
  useAlphaFromDiffuseTexture : Bool
  maxSimultaneousLights : Nat
  invertNormalMapX : Bool
  invertNormalMapY : Bool
  twoSidedLighting : Bool
  bumpScale : Rat
  receiveShadowRate : Rat
  shadingGradeRate : Rat
  shadeShift : Rat
  shadeToony : Rat
  lightColorAttenuation : Rat
  indirectLightIntensity : Rat
  rimLightingMix : Rat
  rimFresnelPower : Rat
  rimLift : Rat
  outlineWidth : Rat
  outlineScaledMaxDistance : Rat
  outlineLightingMix : Rat
  uvAnimationScrollX : Rat
  uvAnimationScrollY : Rat
  uvAnimationRotationValue : Rat
  alphaTest : Bool
  alphaBlend : Bool
  debugMode : DebugMode
  outlineRenderer : Option Nat
  outlineWidthMode : OutlineWidthMode
  outlineColorMode : OutlineColorMode
  cullMode : CullMode
  outlineCullMode : CullMode
  storedCullMode : CullMode
  flipU : Bool
  flipV : Bool
deriving DecidableEq

/-- Modelled from the spec: the elided body of the protected method
`_shouldUseAlphaFromDiffuseTexture` — the material's transparency comes from
the diffuse texture's alpha channel when a diffuse texture is present and the
`useAlphaFromDiffuseTexture` toggle is set. -/
def MToonMaterial.shouldUseAlphaFromDiffuseTexture (m : MToonMaterial) : Bool :=
  m.diffuseTexture.isSome && m.useAlphaFromDiffuseTexture

/-- Modelled from the spec: the elided body of `needAlphaBlending` — true if
`alphaBlend` is set or the material is below full opacity via diffuse alpha. -/
def MToonMaterial.needAlphaBlending (m : MToonMaterial) : Bool :=
  m.alphaBlend || m.shouldUseAlphaFromDiffuseTexture

/-- Modelled from the spec: the elided body of `needAlphaTesting` — true if
`alphaTest` is set. -/
def MToonMaterial.needAlphaTesting (m : MToonMaterial) : Bool :=
  m.alphaTest

/-- Modelled from the spec: the elided body of `getAlphaTestTexture` — the
texture used for the alpha test is the diffuse texture when
`useAlphaFromDiffuseTexture` is true, else none. -/
def MToonMaterial.getAlphaTestTexture (m : MToonMaterial) : Option String :=
  if m.useAlphaFromDiffuseTexture then m.diffuseTexture else Option.none

/-- The single alpha-handling mode selected by the defines computation:
test vs blend vs fully-solid, mutually exclusive (solid names the no-transparency mode). -/
inductive AlphaMode
  | solid
  | test
  | blend
deriving DecidableEq

/-- Modelled from the spec: the alpha-handling mode of the defines set —
blend takes precedence if both blend and test are requested, otherwise test,
otherwise the solid no-transparency mode. -/
def MToonMaterial.alphaHandlingMode (m : MToonMaterial) : AlphaMode :=
  if m.needAlphaBlending then AlphaMode.blend
  else if m.needAlphaTesting then AlphaMode.test
  else AlphaMode.solid

/-- Readiness of the host-owned texture resources: maps a texture url to
whether that texture has finished its asynchronous load. -/
def TextureReadiness : Type := String → Bool

/-- A texture slot's active flag: true iff the texture reference is non-null
and the referenced host texture is ready (spec §3 invariant). -/
def textureActive (ρ : TextureReadiness) (slot : Option String) : Bool :=
  match slot with
  | Option.some url => ρ url
  | Option.none => false

/-- The defines set: compile-time shader flags computed from the material's
parameter state and texture readiness — one flag per active texture slot, one
per enabled boolean toggle, one per selected enum mode, a flag for instanced
rendering, and the single alpha-handling mode.  The defines set is the cache
key for shader-variant reuse. -/
structure MToonDefines where
  DIFFUSE : Bool
  EMISSIVE : Bool
  BUMP : Bool
  SHADE : Bool
  RECEIVE_SHADOW : Bool
  SHADING_GRADE : Bool
  RIM : Bool
  MATCAP : Bool
  OUTLINE_WIDTH_TEX : Bool
  UV_ANIMATION_MASK : Bool
  DISABLE_LIGHTING : Bool
  TWO_SIDED_LIGHTING : Bool
  INVERT_NORMAL_MAP_X : Bool
  INVERT_NORMAL_MAP_Y : Bool
  FLIP_U : Bool
  FLIP_V : Bool
  USE_ALPHA_FROM_DIFFUSE : Bool
  ALPHA_MODE : AlphaMode
  DEBUG_MODE : DebugMode
  OUTLINE_WIDTH_MODE : OutlineWidthMode
  OUTLINE_COLOR_MODE : OutlineColorMode
  INSTANCES : Bool
deriving DecidableEq

/-- Modelled from the spec: the elided body of the private method
`applyDefines` (reached through `isReadyForSubMesh`) — translates the current
parameter state and the readiness of the referenced host textures into the
discrete defines set. -/
def MToonMaterial.applyDefines (m : MToonMaterial) (ρ : TextureReadiness)
    (useInstances : Bool) : MToonDefines :=
  { DIFFUSE := textureActive ρ m.diffuseTexture
    EMISSIVE := textureActive ρ m.emissiveTexture
    BUMP := textureActive ρ m.bumpTexture
    SHADE := textureActive ρ m.shadeTexture
    RECEIVE_SHADOW := textureActive ρ m.receiveShadowTexture
    SHADING_GRADE := textureActive ρ m.shadingGradeTexture
    RIM := textureActive ρ m.rimTexture
    MATCAP := textureActive ρ m.matCapTexture
    OUTLINE_WIDTH_TEX := textureActive ρ m.outlineWidthTexture
    UV_ANIMATION_MASK := textureActive ρ m.uvAnimationMaskTexture
    DISABLE_LIGHTING := m.disableLighting
    TWO_SIDED_LIGHTING := m.twoSidedLighting
    INVERT_NORMAL_MAP_X := m.invertNormalMapX
    INVERT_NORMAL_MAP_Y := m.invertNormalMapY
    FLIP_U := m.flipU
    FLIP_V := m.flipV
    USE_ALPHA_FROM_DIFFUSE := m.useAlphaFromDiffuseTexture
    ALPHA_MODE := m.alphaHandlingMode
    DEBUG_MODE := m.debugMode
    OUTLINE_WIDTH_MODE := m.outlineWidthMode
    OUTLINE_COLOR_MODE := m.outlineColorMode
    INSTANCES := useInstances }

/-- The parameter state of a material: every parameter listed in spec §3
(texture references, colors, scalars, mode enumerations, boolean toggles) —
everything the defines computation and serialization read, and nothing
instance-identifying such as the `name` or the lazily attached outline
renderer. -/
structure ParamState where
  diffuseTexture : Option String
  emissiveTexture : Option String
  bumpTexture : Option String
  shadeTexture : Option String
  receiveShadowTexture : Option String
  shadingGradeTexture : Option String
  rimTexture : Option String
  matCapTexture : Option String
  outlineWidthTexture : Option String
  uvAnimationMaskTexture : Option String
  diffuseColor : Color3
  ambientColor : Color3
  emissiveColor : Color3
  shadeColor : Color3
  rimColor : Color3
  outlineColor : Color3
  alphaCutOff : Rat
  disableLighting : Bool
  useAlphaFromDiffuseTexture : Bool
  maxSimultaneousLights : Nat
  invertNormalMapX : Bool
  invertNormalMapY : Bool
  twoSidedLighting : Bool
  bumpScale : Rat
  receiveShadowRate : Rat
  shadingGradeRate : Rat
  shadeShift : Rat
  shadeToony : Rat
  lightColorAttenuation : Rat
  indirectLightIntensity : Rat
  rimLightingMix : Rat
  rimFresnelPower : Rat
  rimLift : Rat
  outlineWidth : Rat
  outlineScaledMaxDistance : Rat
  outlineLightingMix : Rat
  uvAnimationScrollX : Rat
  uvAnimationScrollY : Rat
  uvAnimationRotationValue : Rat
  alphaTest : Bool
  alphaBlend : Bool
  debugMode : DebugMode
  outlineWidthMode : OutlineWidthMode
  outlineColorMode : OutlineColorMode
  cullMode : CullMode
  outlineCullMode : CullMode
  flipU : Bool
  flipV : Bool
deriving DecidableEq

/-- Projects a material onto its spec-§3 parameter state. -/
def MToonMaterial.parameterState (m : MToonMaterial) : ParamState :=
  { diffuseTexture := m.diffuseTexture
    emissiveTexture := m.emissiveTexture
    bumpTexture := m.bumpTexture
    shadeTexture := m.shadeTexture
    receiveShadowTexture := m.receiveShadowTexture
    shadingGradeTexture := m.shadingGradeTexture
    rimTexture := m.rimTexture
    matCapTexture := m.matCapTexture
    outlineWidthTexture := m.outlineWidthTexture
    uvAnimationMaskTexture := m.uvAnimationMaskTexture
    diffuseColor := m.diffuseColor
    ambientColor := m.ambientColor
    emissiveColor := m.emissiveColor
    shadeColor := m.shadeColor
    rimColor := m.rimColor
    outlineColor := m.outlineColor
    alphaCutOff := m.alphaCutOff
    disableLighting := m.disableLighting
    useAlphaFromDiffuseTexture := m.useAlphaFromDiffuseTexture
    maxSimultaneousLights := m.maxSimultaneousLights
    invertNormalMapX := m.invertNormalMapX
    invertNormalMapY := m.invertNormalMapY
    twoSidedLighting := m.twoSidedLighting
    bumpScale := m.bumpScale
    receiveShadowRate := m.receiveShadowRate
    shadingGradeRate := m.shadingGradeRate
    shadeShift := m.shadeShift
    shadeToony := m.shadeToony
    lightColorAttenuation := m.lightColorAttenuation
    indirectLightIntensity := m.indirectLightIntensity
    rimLightingMix := m.rimLightingMix
    rimFresnelPower := m.rimFresnelPower
    rimLift := m.rimLift
    outlineWidth := m.outlineWidth
    outlineScaledMaxDistance := m.outlineScaledMaxDistance
    outlineLightingMix := m.outlineLightingMix
    uvAnimationScrollX := m.uvAnimationScrollX
    uvAnimationScrollY := m.uvAnimationScrollY
    uvAnimationRotationValue := m.uvAnimationRotationValue
    alphaTest := m.alphaTest
    alphaBlend := m.alphaBlend
    debugMode := m.debugMode
    outlineWidthMode := m.outlineWidthMode
    outlineColorMode := m.outlineColorMode
    cullMode := m.cullMode
    outlineCullMode := m.outlineCullMode
    flipU := m.flipU
    flipV := m.flipV }

/-- The defines computation as a function of the parameter state alone. -/
def definesOfParams (p : ParamState) (ρ : TextureReadiness)
    (useInstances : Bool) : MToonDefines :=
  { DIFFUSE := textureActive ρ p.diffuseTexture
    EMISSIVE := textureActive ρ p.emissiveTexture
    BUMP := textureActive ρ p.bumpTexture
    SHADE := textureActive ρ p.shadeTexture
    RECEIVE_SHADOW := textureActive ρ p.receiveShadowTexture
    SHADING_GRADE := textureActive ρ p.shadingGradeTexture
    RIM := textureActive ρ p.rimTexture
    MATCAP := textureActive ρ p.matCapTexture
    OUTLINE_WIDTH_TEX := textureActive ρ p.outlineWidthTexture
    UV_ANIMATION_MASK := textureActive ρ p.uvAnimationMaskTexture
    DISABLE_LIGHTING := p.disableLighting
    TWO_SIDED_LIGHTING := p.twoSidedLighting
    INVERT_NORMAL_MAP_X := p.invertNormalMapX
    INVERT_NORMAL_MAP_Y := p.invertNormalMapY
    FLIP_U := p.flipU
    FLIP_V := p.flipV
    USE_ALPHA_FROM_DIFFUSE := p.useAlphaFromDiffuseTexture
    ALPHA_MODE :=
      if p.alphaBlend || (p.diffuseTexture.isSome && p.useAlphaFromDiffuseTexture)
      then AlphaMode.blend
      else if p.alphaTest then AlphaMode.test
      else AlphaMode.solid
    DEBUG_MODE := p.debugMode
    OUTLINE_WIDTH_MODE := p.outlineWidthMode
    OUTLINE_COLOR_MODE := p.outlineColorMode
    INSTANCES := useInstances }

/-- Modelled from the spec: the material constructor — a fresh material with a
name, no texture references, no outline renderer attached, and default
parameter values. -/
def mkMToonMaterial (name : String) : MToonMaterial :=
  { name := name
    diffuseTexture := Option.none
    emissiveTexture := Option.none
    bumpTexture := Option.none
    shadeTexture := Option.none
    receiveShadowTexture := Option.none
    shadingGradeTexture := Option.none
    rimTexture := Option.none
    matCapTexture := Option.none
    outlineWidthTexture := Option.none
    uvAnimationMaskTexture := Option.none
    diffuseColor := ⟨1, 1, 1⟩
    ambientColor := ⟨0, 0, 0⟩
    emissiveColor := ⟨0, 0, 0⟩
    shadeColor := ⟨1, 1, 1⟩
    rimColor := ⟨0, 0, 0⟩
    outlineColor := ⟨0, 0, 0⟩
    alphaCutOff := 1
    disableLighting := false
    useAlphaFromDiffuseTexture := false
    maxSimultaneousLights := 4
    invertNormalMapX := false
    invertNormalMapY := false
    twoSidedLighting := false
    bumpScale := 1
    receiveShadowRate := 1
    shadingGradeRate := 1
    shadeShift := 0
    shadeToony := 1
    lightColorAttenuation := 0
    indirectLightIntensity := 1
    rimLightingMix := 0
    rimFresnelPower := 1
    rimLift := 0
    outlineWidth := 1
    outlineScaledMaxDistance := 1
    outlineLightingMix := 1
    uvAnimationScrollX := 0
    uvAnimationScrollY := 0
    uvAnimationRotationValue := 0
    alphaTest := false
    alphaBlend := false
    debugMode := DebugMode.none
    outlineRenderer := Option.none
    outlineWidthMode := OutlineWidthMode.none
    outlineColorMode := OutlineColorMode.fixedColor
    cullMode := CullMode.back
    outlineCullMode := CullMode.front
    storedCullMode := CullMode.back
    flipU := false
    flipV := false }

/-! ### Outline cull-mode save/restore -/

/-- Modelled from the spec: the elided body of `applyOutlineCullMode` — saves
the current cull mode into the private `storedCullMode` slot and installs the
outline pass's cull mode. -/
def MToonMaterial.applyOutlineCullMode (m : MToonMaterial) : MToonMaterial :=
  { m with storedCullMode := m.cullMode, cullMode := m.outlineCullMode }

/-- Modelled from the spec: the elided body of `restoreOutlineCullMode` —
unconditionally restores the cull mode saved in `storedCullMode`. -/
def MToonMaterial.restoreOutlineCullMode (m : MToonMaterial) : MToonMaterial :=
  { m with cullMode := m.storedCullMode }

/-! ### Serialization -/

/-- Encoding of `DebugMode` in the persisted record (the enum's numeric value
in the declaration file). -/
def encodeDebugMode : DebugMode → Nat
  | DebugMode.none => 0
  | DebugMode.normal => 1
  | DebugMode.litShadeRate => 2

/-- Decoding of `DebugMode` from the persisted record, defaulting to `None`
for out-of-range codes. -/
def decodeDebugMode : Nat → DebugMode
  | 1 => DebugMode.normal
  | 2 => DebugMode.litShadeRate
  | _ => DebugMode.none

/-- Encoding of `OutlineColorMode` in the persisted record. -/
def encodeOutlineColorMode : OutlineColorMode → Nat
  | OutlineColorMode.fixedColor => 0
  | OutlineColorMode.mixedLighting => 1

/-- Decoding of `OutlineColorMode` from the persisted record. -/
def decodeOutlineColorMode : Nat → OutlineColorMode
  | 1 => OutlineColorMode.mixedLighting
  | _ => OutlineColorMode.fixedColor

/-- Encoding of `OutlineWidthMode` in the persisted record. -/
def encodeOutlineWidthMode : OutlineWidthMode → Nat
  | OutlineWidthMode.none => 0
  | OutlineWidthMode.worldCoordinates => 1
  | OutlineWidthMode.screenCoordinates => 2

/-- Decoding of `OutlineWidthMode` from the persisted record. -/
def decodeOutlineWidthMode : Nat → OutlineWidthMode
  | 1 => OutlineWidthMode.worldCoordinates
  | 2 => OutlineWidthMode.screenCoordinates
  | _ => OutlineWidthMode.none

/-- Encoding of `CullMode` in the persisted record. -/
def encodeCullMode : CullMode → Nat
  | CullMode.off => 0
  | CullMode.front => 1
  | CullMode.back => 2

/-- Decoding of `CullMode` from the persisted record. -/
def decodeCullMode : Nat → CullMode
  | 1 => CullMode.front
  | 2 => CullMode.back
  | _ => CullMode.off

/-- A color serializes to its component array. -/
def Color3.asArray (c : Color3) : List Rat := [c.r, c.g, c.b]

/-- Decoding of a color from its persisted component array, defaulting to
black for malformed arrays. -/
def colorOfArray : List Rat → Color3
  | [r, g, b] => ⟨r, g, b⟩
  | _ => ⟨0, 0, 0⟩

/-- The plain structured record persisted for a material (the save-file /
interchange format consumed by `Parse`): every parameter of spec §3, with
texture slots carried as optional resource urls, colors as component arrays
and enumerations as their numeric codes. -/
structure SerializedMaterial where
  name : String
  diffuseTexture : Option String
  emissiveTexture : Option String
  bumpTexture : Option String
  shadeTexture : Option String
  receiveShadowTexture : Option String
  shadingGradeTexture : Option String
  rimTexture : Option String
  matCapTexture : Option String
  outlineWidthTexture : Option String
  uvAnimationMaskTexture : Option String
  diffuseColor : List Rat
  ambientColor : List Rat
  emissiveColor : List Rat
  shadeColor : List Rat
  rimColor : List Rat
  outlineColor : List Rat
  alphaCutOff : Rat
  disableLighting : Bool
  useAlphaFromDiffuseTexture : Bool
  maxSimultaneousLights : Nat
  invertNormalMapX : Bool
  invertNormalMapY : Bool
  twoSidedLighting : Bool
  bumpScale : Rat
  receiveShadowRate : Rat
  shadingGradeRate : Rat
  shadeShift : Rat
  shadeToony : Rat
  lightColorAttenuation : Rat
  indirectLightIntensity : Rat
  rimLightingMix : Rat
  rimFresnelPower : Rat
  rimLift : Rat
  outlineWidth : Rat
  outlineScaledMaxDistance : Rat
  outlineLightingMix : Rat
  uvAnimationScrollX : Rat
  uvAnimationScrollY : Rat
  uvAnimationRotationValue : Rat
  alphaTest : Bool
  alphaBlend : Bool
  debugMode : Nat
  outlineWidthMode : Nat
  outlineColorMode : Nat
  cullMode : Nat
  outlineCullMode : Nat
  flipU : Bool
  flipV : Bool
deriving DecidableEq

/-- Modelled from the spec: the implicit serializer (`Parse`'s inverse) — the
material's spec-§3 parameters written into the plain persisted record. -/
def MToonMaterial.serialize (m : MToonMaterial) : SerializedMaterial :=
  { name := m.name
    diffuseTexture := m.diffuseTexture
    emissiveTexture := m.emissiveTexture
    bumpTexture := m.bumpTexture
    shadeTexture := m.shadeTexture
    receiveShadowTexture := m.receiveShadowTexture
    shadingGradeTexture := m.shadingGradeTexture
    rimTexture := m.rimTexture
    matCapTexture := m.matCapTexture
    outlineWidthTexture := m.outlineWidthTexture
    uvAnimationMaskTexture := m.uvAnimationMaskTexture
    diffuseColor := m.diffuseColor.asArray
    ambientColor := m.ambientColor.asArray
    emissiveColor := m.emissiveColor.asArray
    shadeColor := m.shadeColor.asArray
    rimColor := m.rimColor.asArray
    outlineColor := m.outlineColor.asArray
    alphaCutOff := m.alphaCutOff
    disableLighting := m.disableLighting
    useAlphaFromDiffuseTexture := m.useAlphaFromDiffuseTexture
    maxSimultaneousLights := m.maxSimultaneousLights
    invertNormalMapX := m.invertNormalMapX
    invertNormalMapY := m.invertNormalMapY
    twoSidedLighting := m.twoSidedLighting
    bumpScale := m.bumpScale
    receiveShadowRate := m.receiveShadowRate
    shadingGradeRate := m.shadingGradeRate
    shadeShift := m.shadeShift
    shadeToony := m.shadeToony
    lightColorAttenuation := m.lightColorAttenuation
    indirectLightIntensity := m.indirectLightIntensity
    rimLightingMix := m.rimLightingMix
    rimFresnelPower := m.rimFresnelPower
    rimLift := m.rimLift
    outlineWidth := m.outlineWidth
    outlineScaledMaxDistance := m.outlineScaledMaxDistance
    outlineLightingMix := m.outlineLightingMix
    uvAnimationScrollX := m.uvAnimationScrollX
    uvAnimationScrollY := m.uvAnimationScrollY
    uvAnimationRotationValue := m.uvAnimationRotationValue
    alphaTest := m.alphaTest
    alphaBlend := m.alphaBlend
    debugMode := encodeDebugMode m.debugMode
    outlineWidthMode := encodeOutlineWidthMode m.outlineWidthMode
    outlineColorMode := encodeOutlineColorMode m.outlineColorMode
    cullMode := encodeCullMode m.cullMode
    outlineCullMode := encodeCullMode m.outlineCullMode
    flipU := m.flipU
    flipV := m.flipV }

/-- Modelled from the spec: the elided body of the static method `Parse` —
builds a fresh material from a persisted record (no outline renderer attached;
texture resource loading is host-owned and out of scope, the persisted
references are carried over). -/
def Parse (source : SerializedMaterial) : MToonMaterial :=
  { name := source.name
    diffuseTexture := source.diffuseTexture
    emissiveTexture := source.emissiveTexture
    bumpTexture := source.bumpTexture
    shadeTexture := source.shadeTexture
    receiveShadowTexture := source.receiveShadowTexture
    shadingGradeTexture := source.shadingGradeTexture
    rimTexture := source.rimTexture
    matCapTexture := source.matCapTexture
    outlineWidthTexture := source.outlineWidthTexture
    uvAnimationMaskTexture := source.uvAnimationMaskTexture
    diffuseColor := colorOfArray source.diffuseColor
    ambientColor := colorOfArray source.ambientColor
    emissiveColor := colorOfArray source.emissiveColor
    shadeColor := colorOfArray source.shadeColor
    rimColor := colorOfArray source.rimColor
    outlineColor := colorOfArray source.outlineColor
    alphaCutOff := source.alphaCutOff
    disableLighting := source.disableLighting
    useAlphaFromDiffuseTexture := source.useAlphaFromDiffuseTexture
    maxSimultaneousLights := source.maxSimultaneousLights
    invertNormalMapX := source.invertNormalMapX
    invertNormalMapY := source.invertNormalMapY
    twoSidedLighting := source.twoSidedLighting
    bumpScale := source.bumpScale
    receiveShadowRate := source.receiveShadowRate
    shadingGradeRate := source.shadingGradeRate
    shadeShift := source.shadeShift
    shadeToony := source.shadeToony
    lightColorAttenuation := source.lightColorAttenuation
    indirectLightIntensity := source.indirectLightIntensity
    rimLightingMix := source.rimLightingMix
    rimFresnelPower := source.rimFresnelPower
    rimLift := source.rimLift
    outlineWidth := source.outlineWidth
    outlineScaledMaxDistance := source.outlineScaledMaxDistance
    outlineLightingMix := source.outlineLightingMix
    uvAnimationScrollX := source.uvAnimationScrollX
    uvAnimationScrollY := source.uvAnimationScrollY
    uvAnimationRotationValue := source.uvAnimationRotationValue
    alphaTest := source.alphaTest
    alphaBlend := source.alphaBlend
    debugMode := decodeDebugMode source.debugMode
    outlineRenderer := Option.none
    outlineWidthMode := decodeOutlineWidthMode source.outlineWidthMode
    outlineColorMode := decodeOutlineColorMode source.outlineColorMode
    cullMode := decodeCullMode source.cullMode
    outlineCullMode := decodeCullMode source.outlineCullMode
    storedCullMode := decodeCullMode source.cullMode
    flipU := source.flipU
    flipV := source.flipV }

/-! ### Clone: a store of material instances -/

/-- A store of live material instances, indexed by instance id: ids below
`nextId` are allocated.  Mutating one instance must not affect any other. -/
structure MaterialStore where
  nextId : Nat
  mats : Nat → MToonMaterial

/-- Modelled from the spec: the elided body of `clone` — allocates a fresh
instance carrying a deep-value copy of every parameter field of the source,
under the given new name; the lazily built outline renderer (a GPU-side cached
resource) is not shared with the copy.  Returns the updated store and the
fresh instance's id. -/
def MaterialStore.cloneMaterial (s : MaterialStore) (src : Nat) (newName : String) :
    MaterialStore × Nat :=
  ({ nextId := s.nextId + 1
     mats := fun i =>
       if i = s.nextId then
         { s.mats src with name := newName, outlineRenderer := Option.none }
       else s.mats i },
   s.nextId)

/-- A parameter mutation applied to one instance of the store: the setter `f`
runs on the instance with the given id and every other instance is left as it
was. -/
def MaterialStore.mutate (s : MaterialStore) (id : Nat)
    (f : MToonMaterial → MToonMaterial) : MaterialStore :=
  { s with mats := fun i => if i = id then f (s.mats i) else s.mats i }

/-! ### Outline renderer -/

/-- Value of a decimal digit character. -/
def digitVal (c : Char) : Nat := c.toNat - 48

/-- Fuel-indexed decimal digit list of a number, least significant digit
first (the shape of the host language's number-to-string conversion). -/
def natDigitsCore : Nat → Nat → List Char
  | 0, _ => []
  | fuel + 1, n =>
    if n = 0 then [] else Nat.digitChar (n % 10) :: natDigitsCore fuel (n / 10)

/-- The decimal digit characters of a counter value, most significant
first. -/
def natReprList (n : Nat) : List Char :=
  if n = 0 then ['0'] else (natDigitsCore n n).reverse

/-- Decimal rendering of a counter value. -/
def natRepr (n : Nat) : String :=
  String.mk (natReprList n)

/-- The numeric value read back from a least-significant-first digit list
(used to invert `natDigitsCore`). -/
def valLSD : List Char → Nat
  | [] => 0
  | c :: cs => digitVal c + 10 * valLSD cs

/-- Modelled from the spec: the name the `MToonOutlineRenderer` constructor
derives from the static `rendererId` counter (exposed through the material's
`getOutlineRendererName`). -/
def outlineRendererName (id : Nat) : String :=
  "MToonOutlineRenderer_" ++ natRepr id

/-- The `MToonOutlineRenderer` scene component of `src/unnamed/part_000`:
holds its unique component name and a non-owning reference to its owning
material (identified by the material's name here). -/
structure MToonOutlineRenderer where
  name : String
  materialName : String
deriving DecidableEq

/-- Modelled from the spec: the elided `MToonOutlineRenderer` constructor —
one instance per material; the instance name is derived from the static
`rendererId` counter, which the construction increments.  Returns the new
instance and the updated counter. -/
def constructOutlineRenderer (rendererId : Nat) (materialName : String) :
    MToonOutlineRenderer × Nat :=
  ({ name := outlineRendererName rendererId, materialName := materialName },
   rendererId + 1)

/-- Modelled from the spec: the elided body of the outline renderer's private
`willRender` — the outline pass is skipped when the owning material's outline
width mode is `None`, when the outline width is not positive, or when the
mesh/submesh is not otherwise being rendered this frame. -/
def willRender (m : MToonMaterial) (meshIsRendered : Bool) : Bool :=
  decide (m.outlineWidthMode ≠ OutlineWidthMode.none)
    && decide (0 < m.outlineWidth)
    && meshIsRendered

/-- The state a material's outline-render toggle and disposal act on: the
static `rendererId` counter, the material itself, and the owning scene's
component registry (the list of registered component names). -/
structure EngineState where
  rendererId : Nat
  material : MToonMaterial
  registry : List String
deriving DecidableEq

/-- Modelled from the spec: the elided body of `enableOutlineRender` — lazily
constructs the outline renderer component for this material and registers it
with the owning scene's component registry; when the material already holds a
renderer the call does nothing. -/
def EngineState.enableOutlineRender (s : EngineState) : EngineState :=
  match s.material.outlineRenderer with
  | Option.some _ => s
  | Option.none =>
    { rendererId := (constructOutlineRenderer s.rendererId s.material.name).2
      material := { s.material with outlineRenderer := Option.some s.rendererId }
      registry :=
        s.registry ++ [(constructOutlineRenderer s.rendererId s.material.name).1.name] }

/-- Releases every texture reference the material holds (the host-managed
resources themselves are shared and stay alive). -/
def MToonMaterial.releaseTextures (m : MToonMaterial) : MToonMaterial :=
  { m with
    diffuseTexture := Option.none
    emissiveTexture := Option.none
    bumpTexture := Option.none
    shadeTexture := Option.none
    receiveShadowTexture := Option.none
    shadingGradeTexture := Option.none
    rimTexture := Option.none
    matCapTexture := Option.none
    outlineWidthTexture := Option.none
    uvAnimationMaskTexture := Option.none }

/-- Modelled from the spec: the elided body of `dispose` — unregisters and
drops the outline renderer when one is attached, and releases all texture
references.  The returned flag records whether this call unregistered an
outline renderer from the scene's component registry.  The function is total:
disposal never raises. -/
def EngineState.disposeMaterial (s : EngineState) : EngineState × Bool :=
  match s.material.outlineRenderer with
  | Option.some rid =>
    ({ rendererId := s.rendererId
       material := { s.material.releaseTextures with outlineRenderer := Option.none }
       registry := s.registry.erase (outlineRendererName rid) },
     true)
  | Option.none =>
    ({ rendererId := s.rendererId
       material := s.material.releaseTextures
       registry := s.registry },
     false)

/-! ### Sample instances used by witnesses and counterexamples -/

/-- A material requesting both alpha blend and alpha test. -/
def sampleBlendTest : MToonMaterial :=
  { mkMToonMaterial "sample-blend-test" with alphaBlend := true, alphaTest := true }

/-- A material named `left` with a diffuse texture reference. -/
def sampleLeft : MToonMaterial :=
  { mkMToonMaterial "left" with diffuseTexture := Option.some "albedo.png" }

/-- A second, distinct material instance named `right` whose parameter state
matches `sampleLeft`. -/
def sampleRight : MToonMaterial :=
  { mkMToonMaterial "right" with diffuseTexture := Option.some "albedo.png" }

/-- A readiness environment in which every host texture has finished
loading. -/
def sampleRho : TextureReadiness := fun _ => true

/-- A material whose cull mode is about to be saved and restored around an
outline draw. -/
def sampleOutlineMat : MToonMaterial :=
  { mkMToonMaterial "outlined" with
      cullMode := CullMode.back
      outlineCullMode := CullMode.front }

/-- A store holding one original material at id 0. -/
def sampleStore : MaterialStore :=
  { nextId := 1, mats := fun _ => mkMToonMaterial "original" }

/-- A material whose outline width mode is `None` but whose outline width is
positive. -/
def sampleNoOutline : MToonMaterial :=
  { mkMToonMaterial "no-outline" with
      outlineWidthMode := OutlineWidthMode.none
      outlineWidth := 5 }

/-- A material with world-coordinates outlines but a zero outline width. -/
def sampleZeroWidth : MToonMaterial :=
  { mkMToonMaterial "zero-width" with
      outlineWidthMode := OutlineWidthMode.worldCoordinates
      outlineWidth := 0 }

/-- An engine state with a fresh material, an empty scene component registry
and the renderer counter at zero. -/
def sampleEngine : EngineState :=
  { rendererId := 0, material := mkMToonMaterial "mat", registry := [] }

/-! ### Helper lemmas -/

theorem applyDefines_eq_definesOfParams (m : MToonMaterial)
    (ρ : TextureReadiness) (useInstances : Bool) :
    m.applyDefines ρ useInstances = definesOfParams m.parameterState ρ useInstances :=
  rfl

@[simp]
theorem decode_encode_debugMode (d : DebugMode) :
    decodeDebugMode (encodeDebugMode d) = d := by
  cases d <;> rfl

@[simp]
theorem decode_encode_outlineColorMode (d : OutlineColorMode) :
    decodeOutlineColorMode (encodeOutlineColorMode d) = d := by
  cases d <;> rfl

@[simp]
theorem decode_encode_outlineWidthMode (d : OutlineWidthMode) :
    decodeOutlineWidthMode (encodeOutlineWidthMode d) = d := by
  cases d <;> rfl

@[simp]
theorem decode_encode_cullMode (d : CullMode) :
    decodeCullMode (encodeCullMode d) = d := by
  cases d <;> rfl

@[simp]
theorem colorOfArray_asArray (c : Color3) : colorOfArray c.asArray = c :=
  rfl

theorem digitVal_digitChar : ∀ d : Nat, d < 10 → digitVal (Nat.digitChar d) = d := by
  decide

theorem valLSD_natDigitsCore :
    ∀ (fuel n : Nat), n ≤ fuel → valLSD (natDigitsCore fuel n) = n := by
  intro fuel
  induction fuel with
  | zero =>
    intro n h
    have hn : n = 0 := Nat.le_zero.mp h
    subst hn
    rfl
  | succ fuel ih =>
    intro n h
    by_cases h0 : n = 0
    · subst h0
      rfl
    · have hdiv : n / 10 < n := Nat.div_lt_self (Nat.pos_of_ne_zero h0) (by norm_num)
      have hfuel : n / 10 ≤ fuel := by omega
      simp only [natDigitsCore, if_neg h0, valLSD]
      rw [digitVal_digitChar _ (Nat.mod_lt _ (by norm_num)), ih _ hfuel]
      omega

theorem natDigitsCore_self_injective {a b : Nat}
    (h : natDigitsCore a a = natDigitsCore b b) : a = b := by
  have ha := valLSD_natDigitsCore a a le_rfl
  have hb := valLSD_natDigitsCore b b le_rfl
  rw [h] at ha
  omega

theorem natReprList_injective : Function.Injective natReprList := by
  intro a b hab
  unfold natReprList at hab
  by_cases ha : a = 0 <;> by_cases hb : b = 0
  · rw [ha, hb]
  · exfalso
    rw [if_pos ha, if_neg hb] at hab
    have h2 : natDigitsCore b b = ['0'] := by
      have h3 := congrArg List.reverse hab
      simpa using h3.symm
    have h4 := valLSD_natDigitsCore b b le_rfl
    rw [h2] at h4
    have h5 : valLSD ['0'] = 0 := by decide
    rw [h5] at h4
    exact hb h4.symm
  · exfalso
    rw [if_neg ha, if_pos hb] at hab
    have h2 : natDigitsCore a a = ['0'] := by
      have h3 := congrArg List.reverse hab
      simpa using h3
    have h4 := valLSD_natDigitsCore a a le_rfl
    rw [h2] at h4
    have h5 : valLSD ['0'] = 0 := by decide
    rw [h5] at h4
    exact ha h4.symm
  · rw [if_neg ha, if_neg hb] at hab
    exact natDigitsCore_self_injective (List.reverse_injective hab)

theorem natRepr_injective : Function.Injective natRepr := by
  intro a b h
  unfold natRepr at h
  exact natReprList_injective (congrArg String.data h)

theorem outlineRendererName_injective : Function.Injective outlineRendererName := by
  intro a b h
  apply natRepr_injective
  apply String.ext
  have hd := congrArg String.data h
  simp only [outlineRendererName, String.data_append] at hd
  exact List.append_cancel_left hd

theorem enableOutlineRender_idem (s : EngineState) :
    s.enableOutlineRender.enableOutlineRender = s.enableOutlineRender := by
  cases h : s.material.outlineRenderer with
  | some rid => simp [EngineState.enableOutlineRender, h]
  | none => simp [EngineState.enableOutlineRender, h]

/-! ### Claim theorems -/

/-- C1: two distinct `MToonMaterial` instances whose parameter states and
texture-readiness states are identical compute equal defines sets in
`applyDefines` (reached through `isReadyForSubMesh`), so they can share one
compiled shader variant — the defines set depends only on the parameter state
and texture readiness, never on the instance identity. -/
theorem defines_equal_of_equal_parameter_state
    (m₁ m₂ : MToonMaterial) (ρ : TextureReadiness) (useInstances : Bool)
    (h : m₁.parameterState = m₂.parameterState) :
    m₁.applyDefines ρ useInstances = m₂.applyDefines ρ useInstances := by
  rw [applyDefines_eq_definesOfParams, applyDefines_eq_definesOfParams, h]

/-- Witness for C1: two distinct material instances (different names) with the
same parameters and the same texture readiness get equal defines sets. -/
theorem defines_equal_of_equal_parameter_state_witness :
    sampleLeft.parameterState = sampleRight.parameterState
    ∧ sampleLeft.applyDefines sampleRho true = sampleRight.applyDefines sampleRho true :=
  ⟨by decide,
   defines_equal_of_equal_parameter_state sampleLeft sampleRight sampleRho true (by decide)⟩

/-- C2 counterexample: on a material requesting both alpha blend and alpha
test, `needAlphaBlending()` and `needAlphaTesting()` are simultaneously true,
so the claim as stated fails: the two query functions are not mutually
exclusive even when alpha-blend is requested. -/
theorem needAlphaBlending_and_needAlphaTesting_both_true :
    sampleBlendTest.alphaBlend = true
    ∧ sampleBlendTest.needAlphaBlending = true
    ∧ sampleBlendTest.needAlphaTesting = true := by
  decide

/-- C2 (amended): when alpha-blend is requested, the single alpha-handling
mode of the defines computation is `blend`, never `test` — blend takes
precedence over test there, although the `needAlphaBlending()` and
`needAlphaTesting()` queries may both return true. -/
theorem alphaHandlingMode_blend_of_alphaBlend
    (m : MToonMaterial) (h : m.alphaBlend = true) :
    m.alphaHandlingMode = AlphaMode.blend := by
  simp [MToonMaterial.alphaHandlingMode, MToonMaterial.needAlphaBlending, h]

/-- Witness for the amended C2. -/
theorem alphaHandlingMode_blend_of_alphaBlend_witness :
    sampleBlendTest.alphaBlend = true
    ∧ sampleBlendTest.alphaHandlingMode = AlphaMode.blend :=
  ⟨by decide, alphaHandlingMode_blend_of_alphaBlend sampleBlendTest (by decide)⟩

/-- C3: `applyOutlineCullMode()` followed by `restoreOutlineCullMode()` leaves
the cull mode exactly equal to its pre-call value, for every intervening
outline draw — even one that fails after corrupting the live cull mode — as
long as the draw does not touch the private save slot. -/
theorem applyRestore_cullMode_roundtrip
    (m : MToonMaterial) (draw : MToonMaterial → MToonMaterial)
    (hdraw : ∀ x, (draw x).storedCullMode = x.storedCullMode) :
    ((draw m.applyOutlineCullMode).restoreOutlineCullMode).cullMode = m.cullMode := by
  show (draw m.applyOutlineCullMode).storedCullMode = m.cullMode
  rw [hdraw]
  rfl

/-- Witness for C3: a draw that dies after overwriting the live cull mode
still leaves the restored cull mode equal to the pre-call value. -/
theorem applyRestore_cullMode_roundtrip_witness :
    (∀ x : MToonMaterial,
      ((fun y : MToonMaterial => { y with cullMode := CullMode.off }) x).storedCullMode = x.storedCullMode)
    ∧ (((fun y : MToonMaterial => { y with cullMode := CullMode.off })
          sampleOutlineMat.applyOutlineCullMode).restoreOutlineCullMode).cullMode
        = sampleOutlineMat.cullMode :=
  ⟨fun _ => rfl,
   applyRestore_cullMode_roundtrip sampleOutlineMat
     (fun y : MToonMaterial => { y with cullMode := CullMode.off }) (fun _ => rfl)⟩

/-- C4: serializing a material and parsing the record back yields a material
whose value for every parameter of the data model (texture references, colors,
scalars, mode enumerations, boolean toggles) is identical to the original's,
and whose name is preserved — the persisted format round-trips losslessly. -/
theorem parse_serialize_roundtrip (m : MToonMaterial) :
    (Parse m.serialize).parameterState = m.parameterState
    ∧ (Parse m.serialize).name = m.name := by
  constructor
  · simp [Parse, MToonMaterial.serialize, MToonMaterial.parameterState]
  · rfl

/-- C5: cloning a material allocates a fresh independent instance carrying a
deep-value copy of every parameter; mutating any parameter of the clone leaves
the original untouched, and mutating the original leaves the clone
untouched. -/
theorem clone_mutation_independent
    (s : MaterialStore) (src : Nat) (newName : String)
    (f g : MToonMaterial → MToonMaterial) (h : src < s.nextId) :
    (s.cloneMaterial src newName).2 ≠ src
    ∧ ((s.cloneMaterial src newName).1.mats (s.cloneMaterial src newName).2).parameterState
        = (s.mats src).parameterState
    ∧ ((s.cloneMaterial src newName).1.mutate (s.cloneMaterial src newName).2 f).mats src
        = s.mats src
    ∧ ((s.cloneMaterial src newName).1.mutate src g).mats (s.cloneMaterial src newName).2
        = (s.cloneMaterial src newName).1.mats (s.cloneMaterial src newName).2 := by
  have hne : s.nextId ≠ src := by omega
  refine ⟨hne, ?_, ?_, ?_⟩
  · simp [MaterialStore.cloneMaterial, MToonMaterial.parameterState]
  · simp [MaterialStore.cloneMaterial, MaterialStore.mutate, Ne.symm hne]
  · simp [MaterialStore.cloneMaterial, MaterialStore.mutate, hne]

/-- Witness for C5: cloning the material at id 0 of a one-material store, then
mutating the clone's shade shift (resp. the original's rim lift), leaves the
other instance untouched. -/
theorem clone_mutation_independent_witness :
    (0 : Nat) < sampleStore.nextId
    ∧ ((sampleStore.cloneMaterial 0 "copy").2 ≠ 0
       ∧ ((sampleStore.cloneMaterial 0 "copy").1.mats
            (sampleStore.cloneMaterial 0 "copy").2).parameterState
           = (sampleStore.mats 0).parameterState
       ∧ ((sampleStore.cloneMaterial 0 "copy").1.mutate
            (sampleStore.cloneMaterial 0 "copy").2
            (fun m => { m with shadeShift := 2 })).mats 0
           = sampleStore.mats 0
       ∧ ((sampleStore.cloneMaterial 0 "copy").1.mutate 0
            (fun m => { m with rimLift := 3 })).mats
            (sampleStore.cloneMaterial 0 "copy").2
           = (sampleStore.cloneMaterial 0 "copy").1.mats
               (sampleStore.cloneMaterial 0 "copy").2) :=
  ⟨by decide,
   clone_mutation_independent sampleStore 0 "copy"
     (fun m => { m with shadeShift := 2 }) (fun m => { m with rimLift := 3 })
     (by decide)⟩

/-- C6: the outline renderer's `willRender` decision is false whenever the
owning material's outline width mode is `None` (for every outline width
value), whenever the outline width is not positive, and whenever the
mesh/submesh is not otherwise being rendered this frame. -/
theorem willRender_skip_conditions (m : MToonMaterial) (meshIsRendered : Bool) :
    (m.outlineWidthMode = OutlineWidthMode.none →
      willRender m meshIsRendered = false)
    ∧ (m.outlineWidth ≤ 0 → willRender m meshIsRendered = false)
    ∧ willRender m false = false := by
  refine ⟨fun h => ?_, fun h => ?_, ?_⟩
  · simp [willRender, h]
  · simp [willRender, not_lt.mpr h]
  · simp [willRender]

/-- Witness for C6: a material with `outlineWidthMode = None` and a positive
width is skipped, a material with zero width is skipped, and a mesh not being
rendered this frame is skipped. -/
theorem willRender_skip_conditions_witness :
    willRender sampleNoOutline true = false
    ∧ willRender sampleZeroWidth true = false
    ∧ willRender sampleOutlineMat false = false :=
  ⟨(willRender_skip_conditions sampleNoOutline true).1 (by decide),
   (willRender_skip_conditions sampleZeroWidth true).2.1 (by decide),
   (willRender_skip_conditions sampleOutlineMat false).2.2⟩

/-- C7: starting from a material with no outline renderer attached and whose
renderer name is not yet in the scene's component registry, any positive
number of `enableOutlineRender()` calls leaves exactly one outline renderer
registered for that material — repeated calls create no duplicate
registration. -/
theorem enableOutlineRender_registers_exactly_once
    (s : EngineState) (n : Nat)
    (h0 : s.material.outlineRenderer = Option.none)
    (h1 : s.registry.count (outlineRendererName s.rendererId) = 0) :
    (EngineState.enableOutlineRender^[n + 1] s).registry.count
        (outlineRendererName s.rendererId) = 1 := by
  rw [Function.iterate_succ_apply, Function.iterate_fixed (enableOutlineRender_idem s)]
  simp [EngineState.enableOutlineRender, h0, constructOutlineRenderer,
    List.count_append, h1]

/-- Witness for C7: enabling outline render twice on a fresh engine state
leaves exactly one registered renderer. -/
theorem enableOutlineRender_registers_exactly_once_witness :
    sampleEngine.material.outlineRenderer = Option.none
    ∧ sampleEngine.registry.count (outlineRendererName sampleEngine.rendererId) = 0
    ∧ (EngineState.enableOutlineRender^[2] sampleEngine).registry.count
        (outlineRendererName sampleEngine.rendererId) = 1 :=
  ⟨by decide, by decide,
   enableOutlineRender_registers_exactly_once sampleEngine 1 (by decide) (by decide)⟩

/-- C8: disposal is idempotent — `dispose()` is total (never raises), and a
second `dispose()` after a first one changes nothing and performs no second
unregistration of the material's outline renderer (the returned flag of the
second call is false). -/
theorem disposeMaterial_idempotent (s : EngineState) :
    (s.disposeMaterial).1.disposeMaterial = ((s.disposeMaterial).1, false) := by
  cases h : s.material.outlineRenderer with
  | some rid =>
    simp [EngineState.disposeMaterial, MToonMaterial.releaseTextures, h]
  | none =>
    simp [EngineState.disposeMaterial, MToonMaterial.releaseTextures, h]

/-- C9: `needAlphaBlending()` is true exactly when `alphaBlend` is set or the
material is below full opacity via the diffuse texture's alpha channel;
`needAlphaTesting()` is true exactly when `alphaTest` is set; and
`getAlphaTestTexture()` yields the diffuse texture when
`useAlphaFromDiffuseTexture` is true, else none. -/
theorem alpha_transparency_decisions (m : MToonMaterial) :
    (m.needAlphaBlending = true ↔
      (m.alphaBlend = true ∨ m.shouldUseAlphaFromDiffuseTexture = true))
    ∧ (m.needAlphaTesting = true ↔ m.alphaTest = true)
    ∧ m.getAlphaTestTexture
        = (if m.useAlphaFromDiffuseTexture then m.diffuseTexture else Option.none) := by
  refine ⟨?_, Iff.rfl, rfl⟩
  simp [MToonMaterial.needAlphaBlending]

/-- C10: the outline renderer constructor strictly increases the static
`rendererId` counter, and two constructions at distinct counter values (as any
two constructions in one run necessarily are) produce instances with distinct
`name` values — so outline renderers of distinct materials register under
distinct component names. -/
theorem constructed_outline_renderer_names_distinct
    (c i j : Nat) (nmi nmj : String) (h : i ≠ j) :
    (constructOutlineRenderer (c + i) nmi).1.name
        ≠ (constructOutlineRenderer (c + j) nmj).1.name
    ∧ c < (constructOutlineRenderer c nmi).2 := by
  constructor
  · intro hname
    have hc := outlineRendererName_injective hname
    omega
  · show c < c + 1
    omega

/-- Witness for C10: the first and second constructions (counter values 0 and
1) yield distinct renderer names, and construction advances the counter. -/
theorem constructed_outline_renderer_names_distinct_witness :
    (0 : Nat) ≠ 1
    ∧ ((constructOutlineRenderer (0 + 0) "matA").1.name
          ≠ (constructOutlineRenderer (0 + 1) "matB").1.name
       ∧ 0 < (constructOutlineRenderer 0 "matA").2) :=
  ⟨by decide,
   constructed_outline_renderer_names_distinct 0 0 1 "matA" "matB" (by decide)⟩

end MToonSpec
